import Mathlib

/-!
Verification of the health-check orchestration engine and the Kubernetes
API helpers (`pkg/healthcheck/healthcheck.go`, `pkg/k8s/api.go`).

The Go code is shallowly embedded: a registered `checker`'s closures are
modelled by the results they return when invoked (each is invoked at most
once per run, and the pipeline-context side effects do not influence the
observer trace or the returned boolean), `error` values are `Option String`
(`none` = nil), and the `CheckObserver` callback is modelled by collecting
the list of its invocations, in order.
-/

/-- One outcome handed to the `CheckObserver` callback: the three arguments
of one `observe(category, description, err)` call in `RunChecks`. -/
structure Outcome where
  category : String
  description : String
  error : Option String
deriving DecidableEq, Repr

/-- Status of one sub-result in a `SelfCheckResponse`; the code only
distinguishes `OK` from everything else (`check.Status != CheckStatus_OK`). -/
inductive CheckStatus where
  | OK
  | FAIL
deriving DecidableEq, Repr

/-- One sub-result of the self-check RPC (`healthcheckPb.CheckResult`),
with the fields `RunChecks` reads. -/
structure CheckResult where
  subsystemName : String
  checkDescription : String
  status : CheckStatus
  friendlyMessageToUser : String
deriving DecidableEq, Repr

/-- The self-check RPC response (`healthcheckPb.SelfCheckResponse`). -/
structure SelfCheckResponse where
  results : List CheckResult
deriving DecidableEq, Repr

/-- A registered `checker` (healthcheck.go lines 17-23).  The two nullable
closure fields `check` and `checkRpc` are modelled by the result each
returns when `RunChecks` invokes it: `check : Option (Option String)` is
`none` when the Go field is nil, and `some err` when calling it yields
`err`; likewise `checkRpc` yields either an error or a response. -/
structure Checker where
  category : String
  description : String
  fatal : Bool
  check : Option (Option String)
  checkRpc : Option (Except String SelfCheckResponse)

/-- The outcomes emitted by the `checker.check != nil` branch of the loop
body (healthcheck.go lines 151-153): one `observe` call when the local
closure is present, none otherwise. -/
def localOutcomes (c : Checker) : List Outcome :=
  match c.check with
  | none => []
  | some err => [⟨c.category, c.description, err⟩]

/-- Whether the local branch sets `success = false`
(healthcheck.go line 154: `if err != nil`). -/
def localFailed (c : Checker) : Bool :=
  match c.check with
  | none => false
  | some err => err.isSome

/-- The error attached to one sub-result (healthcheck.go lines 175-179):
non-nil, built from `FriendlyMessageToUser`, exactly when the status is
not `OK`. -/
def subError (r : CheckResult) : Option String :=
  if r.status ≠ CheckStatus.OK then some r.friendlyMessageToUser else none

/-- The `observe` call for one sub-result (healthcheck.go lines 173-181):
category is `fmt.Sprintf("%s[%s]", checker.category, check.SubsystemName)`. -/
def subOutcome (cat : String) (r : CheckResult) : Outcome :=
  { category := cat ++ "[" ++ r.subsystemName ++ "]"
    description := r.checkDescription
    error := subError r }

/-- Whether the sub-result loop sets `success = false`
(healthcheck.go lines 176-177): some result's status is not `OK`. -/
def rpcFailed (rsp : SelfCheckResponse) : Bool :=
  rsp.results.any (fun r => r.status != CheckStatus.OK)

/-- The `for _, checker := range hc.checkers` loop of `RunChecks`
(healthcheck.go lines 150-183), as structural recursion over the remaining
checkers, threading the `success` flag; `break` is translated by returning
without recursing.  Produces the list of `observe` invocations in order,
and the final `success` value. -/
def runChecksAux : List Checker → Bool → List Outcome × Bool
  | [], success => ([], success)
  | c :: rest, success =>
    if localFailed c && c.fatal then
      -- local closure errored and the checker is fatal: observe, then break
      (localOutcomes c, false)
    else
      match c.checkRpc with
      | none =>
        (localOutcomes c ++ (runChecksAux rest (success && !localFailed c)).fst,
         (runChecksAux rest (success && !localFailed c)).snd)
      | some (Except.error e) =>
        if c.fatal then
          (localOutcomes c ++ [⟨c.category, c.description, some e⟩], false)
        else
          (localOutcomes c ++ ⟨c.category, c.description, some e⟩ :: (runChecksAux rest false).fst,
           (runChecksAux rest false).snd)
      | some (Except.ok rsp) =>
        (localOutcomes c ++ ⟨c.category, c.description, none⟩ ::
            rsp.results.map (subOutcome c.category)
            ++ (runChecksAux rest (success && !localFailed c && !rpcFailed rsp)).fst,
         (runChecksAux rest (success && !localFailed c && !rpcFailed rsp)).snd)

/-- `HealthChecker.RunChecks` (healthcheck.go lines 147-186): starts with
`success = true`, runs the loop, returns the observer trace and `success`. -/
def RunChecks (checkers : List Checker) : List Outcome × Bool :=
  runChecksAux checkers true

/-- `NewHealthChecker` (healthcheck.go lines 36-40): the checker registry
of a freshly constructed `HealthChecker` is empty. -/
def NewHealthChecker : List Checker := []

/-- All outcomes in a trace carry a nil error. -/
def allNone (outs : List Outcome) : Bool :=
  outs.all (fun o => o.error.isNone)

/-- The action of checker `c` errors: its local closure returns a non-nil
error, or it is an RPC checker (no local closure) whose call itself
returns an error. -/
def actionErrors (c : Checker) : Bool :=
  match c.check, c.checkRpc with
  | some (some _), _ => true
  | none, some (Except.error _) => true
  | _, _ => false

def c3w : Checker :=
  { category := "linkerd-version", description := "cli is up-to-date",
    fatal := false, check := some none, checkRpc := none }

def c2w : Checker :=
  { category := "kubernetes-api", description := "can initialize the client",
    fatal := true, check := some (some "no kubeconfig"), checkRpc := none }

def c2wNext : Checker :=
  { category := "kubernetes-api", description := "can query the Kubernetes API",
    fatal := true, check := some none, checkRpc := none }

def c5w : Checker :=
  { category := "linkerd-api", description := "can query the control plane API",
    fatal := false, check := none,
    checkRpc := some (Except.error "connection refused") }

def c5wNext : Checker :=
  { category := "linkerd-version", description := "can get the latest version",
    fatal := true, check := some none, checkRpc := none }

def c6w : Checker :=
  { category := "linkerd-api", description := "can query the control plane API",
    fatal := true, check := none,
    checkRpc := some (Except.ok ⟨[⟨"kubernetes", "control plane can talk to Kubernetes",
      CheckStatus.FAIL, "kubernetes unreachable"⟩]⟩) }

def c6wNext : Checker :=
  { category := "linkerd-version", description := "can get the latest version",
    fatal := true, check := some none, checkRpc := none }

/-- Scenario B of the spec: one RPC checker whose call succeeds with two
sub-results, the first OK and the second failed with message "disk full". -/
def scenarioB : Checker :=
  { category := "linkerd-api", description := "can query the control plane API",
    fatal := false, check := none,
    checkRpc := some (Except.ok ⟨[⟨"s1", "d1", CheckStatus.OK, ""⟩,
      ⟨"s2", "d2", CheckStatus.FAIL, "disk full"⟩]⟩) }

def c1wRsp : SelfCheckResponse :=
  ⟨[⟨"kubernetes", "control plane can talk to Kubernetes", CheckStatus.OK, ""⟩,
    ⟨"prometheus", "control plane can talk to Prometheus", CheckStatus.FAIL,
      "prometheus unreachable"⟩]⟩

def c1w : Checker :=
  { category := "linkerd-api", description := "can query the control plane API",
    fatal := false, check := none, checkRpc := some (Except.ok c1wRsp) }

/-- Follows the spec's words (§3, LeafOutcome): a check yields exactly one
LeafOutcome — for a LocalAction, or for a RemoteAction whose own call
fails — or one LeafOutcome per SubResult when the RemoteAction call
succeeds. -/
def specLeafCount (c : Checker) : Nat :=
  match c.checkRpc with
  | some (Except.ok rsp) => rsp.results.length
  | some (Except.error _) => 1
  | none => 1

/-- Follows the spec's words (§3, LeafOutcome): the LeafOutcome of a
check's local action, `{category, description, error}`; none when the
check has no local action. -/
def specLocalLeaf (c : Checker) : List Outcome :=
  match c.check with
  | none => []
  | some err => [⟨c.category, c.description, err⟩]

/-- Follows the spec's words (§3/§4.1): the LeafOutcome of one SubResult —
category suffixed `[subsystemName]`, the SubResult's own description, and
an error built from the failure message exactly when it is not OK. -/
def specSubLeaf (cat : String) (r : CheckResult) : Outcome :=
  ⟨cat ++ "[" ++ r.subsystemName ++ "]", r.checkDescription,
   if r.status ≠ CheckStatus.OK then some r.friendlyMessageToUser else none⟩

/-- Follows the spec's words (§3, LeafOutcome): the LeafOutcomes
contributed by a check's remote action — one for the call's own failure,
or one per returned SubResult, in the response's order, when the call
succeeds. -/
def specRpcLeaves (c : Checker) : List Outcome :=
  match c.checkRpc with
  | none => []
  | some (Except.error e) => [⟨c.category, c.description, some e⟩]
  | some (Except.ok rsp) => rsp.results.map (specSubLeaf c.category)

/-- The amendment's extra invocation: exactly one top-level observation,
with a nil error, per RemoteAction call that succeeds (the unconditional
`observe` of healthcheck.go line 164), emitted before that call's
SubResult LeafOutcomes. -/
def callObservations (c : Checker) : List Outcome :=
  match c.checkRpc with
  | some (Except.ok _) => [⟨c.category, c.description, none⟩]
  | _ => []

/-- Whether a checker halts the run (the fatal semantics of C2): it is
marked fatal and its local action errors or its RPC call itself errors. -/
def checkerHalts (c : Checker) : Bool :=
  c.fatal && (localFailed c ||
    match c.checkRpc with
    | some (Except.error _) => true
    | _ => false)

/-- The observer trace the amended claim predicts for a whole run: per
checker, in registration order, its LeafOutcomes with the extra
call observation inserted before the SubResult leaves — exactly once per
LeafOutcome plus exactly once per successful RemoteAction call — where a
fatal local failure truncates the run before the checker's own remote
part and a fatal RPC-call failure truncates it after that call's
LeafOutcome. -/
def specRunTrace : List Checker → List Outcome
  | [] => []
  | c :: rest =>
    if localFailed c && c.fatal then specLocalLeaf c
    else
      specLocalLeaf c ++ callObservations c ++ specRpcLeaves c ++
        (if checkerHalts c then [] else specRunTrace rest)

/-- A RemoteAction checker whose call succeeds with a single OK
sub-result. -/
def c7cex : Checker :=
  { category := "linkerd-api", description := "can query the control plane API",
    fatal := false, check := none,
    checkRpc := some (Except.ok ⟨[⟨"kubernetes",
      "control plane can talk to Kubernetes", CheckStatus.OK, ""⟩]⟩) }

def c7wLocal : Checker :=
  { category := "kubernetes-api", description := "can initialize the client",
    fatal := true, check := some none, checkRpc := none }

def c7wRsp : SelfCheckResponse :=
  ⟨[⟨"kubernetes", "control plane can talk to Kubernetes", CheckStatus.OK, ""⟩]⟩

def c7wRpc : Checker :=
  { category := "linkerd-api", description := "can query the control plane API",
    fatal := true, check := none, checkRpc := some (Except.ok c7wRsp) }

/-- An HTTP response as `CheckNamespaceExists` consumes it: the numeric
`StatusCode` and the human-readable `Status` line. -/
structure HttpResponse where
  statusCode : Nat
  status : String
deriving DecidableEq, Repr

/-- Namespace-check error, one constructor per `fmt.Errorf` site in
`CheckNamespaceExists` (api.go lines 113-119). -/
inductive NamespaceError where
  | notFound (ns : String)
  | unexpectedResponse (st : String)
deriving DecidableEq, Repr

/-- The message each `NamespaceError` renders to: the `fmt.Errorf` format
strings of api.go lines 114 and 118. -/
def renderNamespaceError : NamespaceError → String
  | NamespaceError.notFound ns => "The \"" ++ ns ++ "\" namespace does not exist"
  | NamespaceError.unexpectedResponse st => "Unexpected Kubernetes API response: " ++ st

/-- `CheckNamespaceExists` (api.go lines 93-122), given the response the
GET on `/api/v1/namespaces/<ns>` returned: 404 is tested first, then any
status other than 200, and a 200 response is success. -/
def CheckNamespaceExists (ns : String) (rsp : HttpResponse) : Option NamespaceError :=
  if rsp.statusCode = 404 then some (NamespaceError.notFound ns)
  else if rsp.statusCode ≠ 200 then some (NamespaceError.unexpectedResponse rsp.status)
  else none

/-- `minApiVersion` (api.go line 19). -/
def minApiVersion : Nat × Nat × Nat := (1, 8, 0)

/-- Modelled from the spec: `isCompatibleVersion` is called by
`CheckVersion` (api.go line 84) but its definition is not part of this
repository snapshot.  Spec §4.2 comparison policy: `actual >= required`
iff `actual.major > required.major`, or the majors are equal and
`actual.minor > required.minor`, or majors and minors are equal and
`actual.patch >= required.patch`. -/
def isCompatible (actual required : Nat × Nat × Nat) : Bool :=
  decide (actual.1 > required.1) ||
    (decide (actual.1 = required.1) && decide (actual.2.1 > required.2.1)) ||
    (decide (actual.1 = required.1) && decide (actual.2.1 = required.2.1) &&
      decide (actual.2.2 ≥ required.2.2))

/-- Split a character list at every occurrence of `sep` (the list-level
counterpart of splitting a string on a one-character separator). -/
def splitOnChar (sep : Char) : List Char → List (List Char)
  | [] => [[]]
  | ch :: rest =>
    if ch = sep then [] :: splitOnChar sep rest
    else
      match splitOnChar sep rest with
      | [] => [[ch]]
      | grp :: grps => (ch :: grp) :: grps

/-- The numeric value of a run of decimal digits. -/
def digitsToNat (cs : List Char) : Nat :=
  cs.foldl (fun acc ch => acc * 10 + (ch.toNat - 48)) 0

/-- Modelled from the spec: `getK8sVersion` is called by `CheckVersion`
(api.go line 79) but its definition is not part of this repository
snapshot.  Spec §4.2 parsing policy: discard the pre-release/build
metadata suffix (everything from the first `-` on), skip a recognized
leading non-numeric tag, and keep the first run of dot-separated
purely-numeric components, stopping at the first component that is not
purely numeric. -/
def numericComponents (s : String) : List (List Char) :=
  let beforeSuffix := s.toList.takeWhile (fun ch => ch != '-')
  let afterTag := beforeSuffix.dropWhile (fun ch => !ch.isDigit)
  (splitOnChar '.' afterTag).takeWhile
    (fun comp => !comp.isEmpty && comp.all Char.isDigit)

/-- Modelled from the spec: the parse step of the VersionComparator
(spec §4.2).  Up to three numeric components are consumed; fewer than
three is a parse error naming the offending string. -/
def parseVersion (s : String) : Except String (Nat × Nat × Nat) :=
  match numericComponents s with
  | a :: b :: c :: _ => Except.ok (digitsToNat a, digitsToNat b, digitsToNat c)
  | _ => Except.error s

/-- Version-check error, one constructor per error source in
`CheckVersion` (api.go lines 78-91): the parse error propagated from
`getK8sVersion`, or the incompatibility error carrying the actual and
required triples. -/
inductive VersionError where
  | parseError (raw : String)
  | incompatible (actual required : Nat × Nat × Nat)
deriving DecidableEq, Repr

/-- `CheckVersion` (api.go lines 78-91) over the cluster's version
string: parse it, then require compatibility with `minApiVersion`. -/
def CheckVersion (versionString : String) : Option VersionError :=
  match parseVersion versionString with
  | Except.error raw => some (VersionError.parseError raw)
  | Except.ok v =>
    if isCompatible v minApiVersion then none
    else some (VersionError.incompatible v minApiVersion)

theorem allNone_localOutcomes (c : Checker) :
    allNone (localOutcomes c) = !localFailed c := by
  unfold allNone localOutcomes localFailed
  cases c.check <;> simp

theorem allNone_subOutcomes (cat : String) (rs : List CheckResult) :
    allNone (rs.map (subOutcome cat)) = !(rs.any (fun r => r.status != CheckStatus.OK)) := by
  induction rs with
  | nil => rfl
  | cons r rs ih =>
    unfold allNone at ih ⊢
    cases hs : r.status <;>
      simp [subOutcome, subError, hs, ih]

/-- Once `success` is false it stays false: the loop never writes `true`
back into `success`. -/
theorem runChecksAux_false_snd (cs : List Checker) :
    (runChecksAux cs false).snd = false := by
  induction cs with
  | nil => rfl
  | cons c rest ih =>
    unfold runChecksAux
    split
    · rfl
    · match hr : c.checkRpc with
      | none => simpa using ih
      | some (Except.error e) => cases hf : c.fatal <;> simp [ih]
      | some (Except.ok rsp) => simpa using ih

/-- Loop invariant: the `success` flag computed by the loop equals the
incoming flag conjoined with "every outcome emitted so far had nil
error". -/
theorem runChecksAux_snd_eq (cs : List Checker) (s : Bool) :
    (runChecksAux cs s).snd = (s && allNone (runChecksAux cs s).fst) := by
  induction cs generalizing s with
  | nil => simp [runChecksAux, allNone]
  | cons c rest ih =>
    unfold runChecksAux
    split
    · rename_i hbrk
      rw [Bool.and_eq_true] at hbrk
      have hlf : localFailed c = true := hbrk.1
      unfold localFailed at hlf
      unfold localOutcomes allNone
      cases hc : c.check with
      | none => rw [hc] at hlf; simp at hlf
      | some err =>
        rw [hc] at hlf
        simp only [List.all_cons, List.all_nil]
        cases err with
        | none => simp at hlf
        | some e => simp
    · match hr : c.checkRpc with
      | none =>
        simp only [ih, allNone, List.all_append]
        have hloc := allNone_localOutcomes c
        simp only [allNone] at hloc
        rw [hloc, Bool.and_assoc]
      | some (Except.error e) =>
        cases hf : c.fatal with
        | true =>
          simp [allNone, List.all_append, allNone_localOutcomes]
        | false =>
          simp [allNone, List.all_append, allNone_localOutcomes,
            runChecksAux_false_snd]
      | some (Except.ok rsp) =>
        simp only [ih, allNone, List.all_append, List.all_cons,
          List.all_map]
        have hsub := allNone_subOutcomes c.category rsp.results
        simp only [allNone, List.all_map] at hsub
        rw [hsub]
        have hloc := allNone_localOutcomes c
        simp only [allNone] at hloc
        rw [hloc]
        unfold rpcFailed
        cases s <;> cases localFailed c <;>
          cases rsp.results.any (fun r => r.status != CheckStatus.OK) <;> simp

/-- A fatal checker whose action errors makes the loop `break`: everything
registered after it is ignored, whatever the incoming `success` flag and
wherever in the registry it sits. -/
theorem runChecksAux_fatal_break (c : Checker) (hf : c.fatal = true)
    (he : actionErrors c = true) (cs rest : List Checker) (s : Bool) :
    runChecksAux (cs ++ c :: rest) s = runChecksAux (cs ++ [c]) s := by
  induction cs generalizing s with
  | nil =>
    simp only [List.nil_append]
    match hc : c.check, hr : c.checkRpc with
    | some (some e), _ =>
      have hlf : localFailed c = true := by unfold localFailed; rw [hc]; rfl
      unfold runChecksAux
      rw [hlf, hf]
      simp
    | some none, hrv =>
      unfold actionErrors at he
      rw [hc] at he
      simp at he
    | none, none =>
      unfold actionErrors at he
      rw [hc, hr] at he
      simp at he
    | none, some (Except.ok rsp) =>
      unfold actionErrors at he
      rw [hc, hr] at he
      simp at he
    | none, some (Except.error e) =>
      have hlf : localFailed c = false := by unfold localFailed; rw [hc]
      unfold runChecksAux
      rw [hlf, hr, hf]
      simp
  | cons d cs ih =>
    simp only [List.cons_append]
    unfold runChecksAux
    split
    · rfl
    · match hr : d.checkRpc with
      | none => simp only [ih]
      | some (Except.error e) => cases d.fatal <;> simp [ih]
      | some (Except.ok rsp) => simp only [ih]

/-- With a fatal erroring checker in the registry, the final `success` is
false: either the run breaks at that checker (whose own failure set
`success = false`), or it broke even earlier, also on a failure. -/
theorem runChecksAux_fatal_snd_false (c : Checker) (hf : c.fatal = true)
    (he : actionErrors c = true) (cs : List Checker) (s : Bool) :
    (runChecksAux (cs ++ [c]) s).snd = false := by
  induction cs generalizing s with
  | nil =>
    simp only [List.nil_append]
    match hc : c.check, hr : c.checkRpc with
    | some (some e), _ =>
      have hlf : localFailed c = true := by unfold localFailed; rw [hc]; rfl
      unfold runChecksAux
      rw [hlf, hf]
      simp
    | some none, hrv =>
      unfold actionErrors at he
      rw [hc] at he
      simp at he
    | none, none =>
      unfold actionErrors at he
      rw [hc, hr] at he
      simp at he
    | none, some (Except.ok rsp) =>
      unfold actionErrors at he
      rw [hc, hr] at he
      simp at he
    | none, some (Except.error e) =>
      have hlf : localFailed c = false := by unfold localFailed; rw [hc]
      unfold runChecksAux
      rw [hlf, hr, hf]
      simp
  | cons d cs ih =>
    simp only [List.cons_append]
    unfold runChecksAux
    split
    · rfl
    · match hr : d.checkRpc with
      | none => simp only [ih]
      | some (Except.error e) => cases d.fatal <;> simp [ih]
      | some (Except.ok rsp) => simp only [ih]

/-- C10: for a freshly constructed HealthChecker with no registration
calls, RunChecks returns true and never invokes the Observer. -/
theorem c10_empty_run : RunChecks NewHealthChecker = ([], true) := rfl

/-- C3: RunChecks returns true iff every outcome delivered to the Observer
during the run carried no error; once any outcome errors the result is
false regardless of later successes. -/
theorem c3_success_iff_all_nil (checkers : List Checker) :
    (RunChecks checkers).snd = true ↔
      ∀ o ∈ (RunChecks checkers).fst, o.error = none := by
  rw [RunChecks, runChecksAux_snd_eq]
  simp [allNone, List.all_eq_true, Option.isNone_iff_eq_none]

theorem c3_success_iff_all_nil_witness : (RunChecks [c3w]).snd = true :=
  (c3_success_iff_all_nil [c3w]).mpr (by decide)

/-- C2: if a fatal checker's action (local closure, or the RPC call
itself) errors, the run returns false and behaves exactly as if the
checkers registered after it did not exist: no later checker executes and
the Observer is never invoked again after that checker's error. -/
theorem c2_fatal_halts (cs : List Checker) (c : Checker) (rest : List Checker)
    (hf : c.fatal = true) (he : actionErrors c = true) :
    RunChecks (cs ++ c :: rest) = RunChecks (cs ++ [c]) ∧
    (RunChecks (cs ++ c :: rest)).snd = false := by
  refine ⟨runChecksAux_fatal_break c hf he cs rest true, ?_⟩
  rw [RunChecks, runChecksAux_fatal_break c hf he cs rest true]
  exact runChecksAux_fatal_snd_false c hf he cs true

theorem c2_fatal_halts_witness :
    RunChecks [c2w, c2wNext] = RunChecks [c2w] ∧
    (RunChecks [c2w, c2wNext]).snd = false :=
  c2_fatal_halts [] c2w [c2wNext] rfl rfl

/-- C5: a non-fatal RPC checker whose call itself errors produces exactly
one Observer invocation (the checker's own category and description with
the error), expands no sub-results, forces the aggregate to false, and the
run continues with the next checker. -/
theorem c5_nonfatal_rpc_error (c : Checker) (e : String)
    (rest : List Checker) (s : Bool)
    (hchk : c.check = none) (hrpc : c.checkRpc = some (Except.error e))
    (hf : c.fatal = false) :
    runChecksAux (c :: rest) s =
      (⟨c.category, c.description, some e⟩ :: (runChecksAux rest false).fst,
       (runChecksAux rest false).snd) ∧
    (runChecksAux (c :: rest) s).snd = false := by
  have hlf : localFailed c = false := by unfold localFailed; rw [hchk]
  have hlo : localOutcomes c = [] := by unfold localOutcomes; rw [hchk]
  have key : runChecksAux (c :: rest) s =
      (⟨c.category, c.description, some e⟩ :: (runChecksAux rest false).fst,
       (runChecksAux rest false).snd) := by
    simp [runChecksAux, hlf, hrpc, hf, hlo]
  exact ⟨key, by rw [key]; exact runChecksAux_false_snd rest⟩

theorem c5_nonfatal_rpc_error_witness :
    runChecksAux [c5w, c5wNext] true =
      (⟨"linkerd-api", "can query the control plane API", some "connection refused"⟩ ::
         (runChecksAux [c5wNext] false).fst,
       (runChecksAux [c5wNext] false).snd) ∧
    (runChecksAux [c5w, c5wNext] true).snd = false :=
  c5_nonfatal_rpc_error c5w "connection refused" [c5wNext] true rfl rfl rfl

/-- C6: a fatal RPC checker whose call succeeds but whose response holds a
non-OK sub-result does not halt the run: the fatal flag gates only failure
of the RPC call itself, every sub-result is still observed, the run
continues with the next checker, and only the aggregate drops to false. -/
theorem c6_fatal_gates_call_only (c : Checker) (rsp : SelfCheckResponse)
    (r : CheckResult) (rest : List Checker) (s : Bool)
    (hchk : c.check = none) (hrpc : c.checkRpc = some (Except.ok rsp))
    (_hf : c.fatal = true) (hr : r ∈ rsp.results)
    (hnok : r.status ≠ CheckStatus.OK) :
    runChecksAux (c :: rest) s =
      (⟨c.category, c.description, none⟩ ::
         rsp.results.map (subOutcome c.category)
         ++ (runChecksAux rest false).fst,
       (runChecksAux rest false).snd) ∧
    (runChecksAux (c :: rest) s).snd = false := by
  have hlf : localFailed c = false := by unfold localFailed; rw [hchk]
  have hlo : localOutcomes c = [] := by unfold localOutcomes; rw [hchk]
  have hb : (r.status != CheckStatus.OK) = true := by
    cases hst : r.status
    · exact absurd hst hnok
    · rfl
  have hfail : rpcFailed rsp = true := by
    unfold rpcFailed
    rw [List.any_eq_true]
    exact ⟨r, hr, hb⟩
  have key : runChecksAux (c :: rest) s =
      (⟨c.category, c.description, none⟩ ::
         rsp.results.map (subOutcome c.category)
         ++ (runChecksAux rest false).fst,
       (runChecksAux rest false).snd) := by
    simp [runChecksAux, hlf, hrpc, hfail, hlo]
  exact ⟨key, by rw [key]; exact runChecksAux_false_snd rest⟩

theorem c6_fatal_gates_call_only_witness :
    runChecksAux [c6w, c6wNext] true =
      (⟨"linkerd-api", "can query the control plane API", none⟩ ::
         [⟨"kubernetes", "control plane can talk to Kubernetes",
           CheckStatus.FAIL, "kubernetes unreachable"⟩].map (subOutcome "linkerd-api")
         ++ (runChecksAux [c6wNext] false).fst,
       (runChecksAux [c6wNext] false).snd) ∧
    (runChecksAux [c6w, c6wNext] true).snd = false :=
  c6_fatal_gates_call_only c6w
    ⟨[⟨"kubernetes", "control plane can talk to Kubernetes",
      CheckStatus.FAIL, "kubernetes unreachable"⟩]⟩
    ⟨"kubernetes", "control plane can talk to Kubernetes",
      CheckStatus.FAIL, "kubernetes unreachable"⟩
    [c6wNext] true rfl rfl rfl (List.mem_singleton.mpr rfl) (by decide)

/-- C1 counterexample: the code observes the successful RPC call itself
(healthcheck.go line 164 runs before the `err != nil` test), so a
RemoteAction succeeding with two SubResults yields three Observer
invocations, the first of which is a top-level observation of the call
with nil error — not the two invocations the claim states. -/
theorem c1_counterexample :
    (RunChecks [scenarioB]).fst.length = 3 ∧
    (RunChecks [scenarioB]).fst.head? =
      some ⟨"linkerd-api", "can query the control plane API", none⟩ := by decide

/-- C1 amended: for every RemoteAction check whose RPC call succeeds,
RunChecks first emits one top-level Observer invocation for the call
itself with a nil error, then one invocation per returned SubResult in
the response's order, with category suffixed `[subsystemName]` and a
non-nil error built from the failure message exactly when the SubResult
is not OK; a RemoteAction succeeding with two SubResults hence yields
exactly three Observer invocations. -/
theorem c1_rpc_success_trace (c : Checker) (rsp : SelfCheckResponse)
    (rest : List Checker) (s : Bool)
    (hchk : c.check = none) (hrpc : c.checkRpc = some (Except.ok rsp)) :
    (runChecksAux (c :: rest) s).fst =
      ⟨c.category, c.description, none⟩ ::
        rsp.results.map (fun r =>
          ⟨c.category ++ "[" ++ r.subsystemName ++ "]", r.checkDescription,
           if r.status ≠ CheckStatus.OK then some r.friendlyMessageToUser else none⟩)
        ++ (runChecksAux rest (s && !rpcFailed rsp)).fst ∧
    (runChecksAux (c :: rest) s).fst.length =
      1 + rsp.results.length + (runChecksAux rest (s && !rpcFailed rsp)).fst.length := by
  have hlf : localFailed c = false := by unfold localFailed; rw [hchk]
  have hlo : localOutcomes c = [] := by unfold localOutcomes; rw [hchk]
  have key : (runChecksAux (c :: rest) s).fst =
      ⟨c.category, c.description, none⟩ ::
        rsp.results.map (fun r =>
          ⟨c.category ++ "[" ++ r.subsystemName ++ "]", r.checkDescription,
           if r.status ≠ CheckStatus.OK then some r.friendlyMessageToUser else none⟩)
        ++ (runChecksAux rest (s && !rpcFailed rsp)).fst := by
    simp only [runChecksAux, hlf, hrpc, hlo, Bool.and_false, Bool.false_and,
      Bool.not_false, Bool.and_true]
    simp [subOutcome, subError]
  refine ⟨key, ?_⟩
  rw [key]
  simp [List.length_append]
  omega

theorem c1_rpc_success_trace_witness :
    (runChecksAux [c1w] true).fst =
      ⟨"linkerd-api", "can query the control plane API", none⟩ ::
        c1wRsp.results.map (fun r =>
          ⟨"linkerd-api" ++ "[" ++ r.subsystemName ++ "]", r.checkDescription,
           if r.status ≠ CheckStatus.OK then some r.friendlyMessageToUser else none⟩)
        ++ (runChecksAux [] (true && !rpcFailed c1wRsp)).fst ∧
    (runChecksAux [c1w] true).fst.length =
      1 + c1wRsp.results.length + (runChecksAux [] (true && !rpcFailed c1wRsp)).fst.length :=
  c1_rpc_success_trace c1w c1wRsp [] true rfl rfl

/-- C7 counterexample: this run has exactly one LeafOutcome under the
spec's data model (one per SubResult of the successful RemoteAction), yet
the Observer is invoked twice — the extra invocation is the top-level
observation of the successful call at healthcheck.go line 164 — so the
Observer is not invoked exactly once per LeafOutcome. -/
theorem c7_counterexample :
    (RunChecks [c7cex]).fst.length = 2 ∧ specLeafCount c7cex = 1 := by decide

theorem specLocalLeaf_eq (c : Checker) : specLocalLeaf c = localOutcomes c := rfl

theorem specSubLeaf_eq (cat : String) (r : CheckResult) :
    specSubLeaf cat r = subOutcome cat r := rfl

/-- The observer trace of any run is determined by the registry alone
(the incoming flag does not influence it) and equals the spec-predicted
trace: per checker in registration order, its LeafOutcomes with one
extra nil-error observation inserted per successful RPC call, truncated
at fatal failures. -/
theorem runChecksAux_fst_specRunTrace (cs : List Checker) (s : Bool) :
    (runChecksAux cs s).fst = specRunTrace cs := by
  induction cs generalizing s with
  | nil => rfl
  | cons c rest ih =>
    by_cases hbrk : (localFailed c && c.fatal) = true
    · simp [runChecksAux, specRunTrace, hbrk, specLocalLeaf_eq]
    · rw [Bool.not_eq_true] at hbrk
      match hr : c.checkRpc with
      | none =>
        have hhalt : checkerHalts c = false := by
          unfold checkerHalts
          rw [hr]
          cases hcf : c.fatal <;> cases hlf : localFailed c <;> simp_all
        simp [runChecksAux, specRunTrace, hbrk, hr, hhalt, specLocalLeaf_eq,
          callObservations, specRpcLeaves, ih]
      | some (Except.error e) =>
        cases hcf : c.fatal with
        | true =>
          have hlf : localFailed c = false := by
            rw [hcf, Bool.and_true] at hbrk
            exact hbrk
          have hhalt : checkerHalts c = true := by
            unfold checkerHalts
            rw [hr, hcf]
            simp
          simp [runChecksAux, specRunTrace, hbrk, hr, hcf, hlf, hhalt,
            specLocalLeaf_eq, callObservations, specRpcLeaves]
        | false =>
          have hhalt : checkerHalts c = false := by
            unfold checkerHalts
            rw [hr, hcf]
            simp
          simp [runChecksAux, specRunTrace, hbrk, hr, hcf, hhalt,
            specLocalLeaf_eq, callObservations, specRpcLeaves, ih]
      | some (Except.ok rsp) =>
        have hhalt : checkerHalts c = false := by
          unfold checkerHalts
          rw [hr]
          cases hcf : c.fatal <;> cases hlf : localFailed c <;> simp_all
        simp [runChecksAux, specRunTrace, hbrk, hr, hhalt, specLocalLeaf_eq,
          specSubLeaf_eq, callObservations, specRpcLeaves, ih]

/-- C7 amended: for every registered sequence of checks and every
incoming flag, the Observer trace equals the spec-predicted sequence:
each executed checker contributes, synchronously and in registration
order, exactly its LeafOutcomes plus exactly one extra invocation per
successful RemoteAction call; moreover a LocalAction returning no error
still contributes exactly one invocation with a nil error, an OK
SubResult still contributes exactly one invocation with a nil error, and
every extra call observation carries a nil error. -/
theorem c7_order_and_success_trace (cs : List Checker) (s : Bool) :
    (runChecksAux cs s).fst = specRunTrace cs ∧
    (∀ d : Checker, d.check = some none →
      specLocalLeaf d = [⟨d.category, d.description, none⟩]) ∧
    (∀ (cat : String) (r : CheckResult), r.status = CheckStatus.OK →
      specSubLeaf cat r =
        ⟨cat ++ "[" ++ r.subsystemName ++ "]", r.checkDescription, none⟩) ∧
    (∀ d : Checker, ∀ o ∈ callObservations d, o.error = none) := by
  refine ⟨runChecksAux_fst_specRunTrace cs s, ?_, ?_, ?_⟩
  · intro d hd
    unfold specLocalLeaf
    rw [hd]
  · intro cat r hok
    unfold specSubLeaf
    rw [hok]
    simp
  · intro d o ho
    unfold callObservations at ho
    match hr : d.checkRpc with
    | some (Except.ok rsp) =>
      rw [hr] at ho
      simp at ho
      simp [ho]
    | some (Except.error e) =>
      rw [hr] at ho
      simp at ho
    | none =>
      rw [hr] at ho
      simp at ho

theorem c7_order_and_success_trace_witness :
    (runChecksAux [c7wLocal, c7wRpc] true).fst =
      specRunTrace [c7wLocal, c7wRpc] :=
  (c7_order_and_success_trace [c7wLocal, c7wRpc] true).1

/-- C9: CheckNamespaceExists succeeds exactly on HTTP 200; a 404 yields
the namespace-does-not-exist error naming the namespace; any other
non-200 status yields the generic protocol error carrying the status
text; and the two error forms are distinguishable. -/
theorem c9_namespace_exists (ns : String) (rsp : HttpResponse) :
    (CheckNamespaceExists ns rsp = none ↔ rsp.statusCode = 200) ∧
    (rsp.statusCode = 404 →
      CheckNamespaceExists ns rsp = some (NamespaceError.notFound ns)) ∧
    (rsp.statusCode ≠ 404 → rsp.statusCode ≠ 200 →
      CheckNamespaceExists ns rsp = some (NamespaceError.unexpectedResponse rsp.status)) ∧
    (∀ st, NamespaceError.notFound ns ≠ NamespaceError.unexpectedResponse st) ∧
    renderNamespaceError (NamespaceError.notFound ns) =
      "The \"" ++ ns ++ "\" namespace does not exist" ∧
    renderNamespaceError (NamespaceError.unexpectedResponse rsp.status) =
      "Unexpected Kubernetes API response: " ++ rsp.status := by
  refine ⟨?_, ?_, ?_, fun st h => NamespaceError.noConfusion h, rfl, rfl⟩
  · by_cases h4 : rsp.statusCode = 404 <;> by_cases h2 : rsp.statusCode = 200 <;>
      simp [CheckNamespaceExists, h4, h2]
  · intro h4
    simp [CheckNamespaceExists, h4]
  · intro h4 h2
    simp [CheckNamespaceExists, h4, h2]

theorem c9_namespace_exists_witness :
    CheckNamespaceExists "linkerd" ⟨404, "404 Not Found"⟩ =
      some (NamespaceError.notFound "linkerd") :=
  (c9_namespace_exists "linkerd" ⟨404, "404 Not Found"⟩).2.1 rfl

/-- C4: isCompatible holds exactly when the actual version is at least
the required one in the lexicographic order on (major, minor, patch);
in particular on the four example pairs of the spec. -/
theorem c4_isCompatible_lex :
    (∀ actual required : Nat × Nat × Nat,
      isCompatible actual required = true ↔
        toLex (required.1, toLex (required.2.1, required.2.2)) ≤
          toLex (actual.1, toLex (actual.2.1, actual.2.2))) ∧
    isCompatible (1, 9, 0) (1, 8, 0) = true ∧
    isCompatible (2, 0, 0) (1, 8, 0) = true ∧
    isCompatible (1, 8, 0) (1, 8, 0) = true ∧
    isCompatible (1, 7, 9) (1, 8, 0) = false := by
  refine ⟨?_, by decide, by decide, by decide, by decide⟩
  intro a r
  simp only [isCompatible, Prod.Lex.le_iff, Bool.or_eq_true, Bool.and_eq_true,
    decide_eq_true_eq, gt_iff_lt, ge_iff_le]
  omega

/-- C8: version parsing fails with a parse error whenever fewer than
three purely-numeric components are found; "v1.9.3-gke.2" parses to
(1,9,3) with the suffix discarded, and "abc" is a parse error. -/
theorem c8_parse_policy (s : String)
    (h : (numericComponents s).length < 3) :
    parseVersion s = Except.error s ∧
    parseVersion "v1.9.3-gke.2" = Except.ok (1, 9, 3) ∧
    parseVersion "abc" = Except.error "abc" := by
  refine ⟨?_, rfl, rfl⟩
  unfold parseVersion
  rcases hc : numericComponents s with _ | ⟨a, _ | ⟨b, _ | ⟨c, t⟩⟩⟩
  · rfl
  · rfl
  · rfl
  · rw [hc] at h
    simp at h
    exact absurd h (by omega)

theorem c8_parse_policy_witness :
    parseVersion "abc" = Except.error "abc" ∧
    parseVersion "v1.9.3-gke.2" = Except.ok (1, 9, 3) :=
  ⟨(c8_parse_policy "abc" (by decide)).1,
   (c8_parse_policy "abc" (by decide)).2.1⟩
